import Mathlib

/-!
Verification development for the paging fetch/control component and the
row-set comparison helpers of the repository under test.

The Python code is shallowly embedded as follows.

* `Page` / `PageFetcher` mirror the classes of `paging_test.py`; machine
  integers do not occur (the Python counters are unbounded ints), so the
  counters are `Nat`.
* The asynchronous paged-result source delivers pages by invoking the
  registered `handle_page` callback from its own execution context.  We
  model the environment by an explicit delivery schedule: `wait` is given,
  for each poll of its busy-poll loop, the batch of callback invocations
  that have occurred since the previous poll.  Time is discrete: the
  Python loop `while time.time() < expiry` with `expiry = now + seconds`
  is modelled as one counter poll per elapsed time unit, so a bound of
  `seconds` allows `seconds.toNat` polls, and a non-positive bound allows
  none (exactly as in the source, where the loop body is skipped when the
  expiry already lies in the past).
* Fallible operations (`wait` raising `RuntimeError`, Python `IndexError`
  on list access) are rendered with `Except String` and `Option`.
-/

/-- One batch of rows delivered by a single fetch (class `Page`). -/
structure Page (α : Type) where
  data : List α
deriving Repr, DecidableEq

/-- Method `Page.add_row`: appends a row to the page. -/
def Page.add_row {α : Type} (p : Page α) (row : α) : Page α :=
  { data := p.data ++ [row] }

/-- The mutable state of a `PageFetcher`: its accumulated pages and the two
request/retrieve counters.  The `future` field of the Python object is the
external source; it is not part of the state proper and is modelled by the
delivery schedules and `Future` below. -/
structure PageFetcher (α : Type) where
  pages : List (Page α)
  requested_pages : Nat
  retrieved_pages : Nat
deriving Repr, DecidableEq

/-- Method `PageFetcher.handle_page` (the registered page-arrival callback):
increments `retrieved_pages`, creates a fresh `Page`, appends it to `pages`
and adds every row of `rows` to it in order. -/
def handle_page {α : Type} (st : PageFetcher α) (rows : List α) : PageFetcher α :=
  { st with
    retrieved_pages := st.retrieved_pages + 1,
    pages := st.pages ++ [List.foldl Page.add_row { data := [] } rows] }

/-- A batch of page-arrival callback invocations happening between two
consecutive polls of the `wait` loop, applied in order. -/
def deliverBatch {α : Type} (st : PageFetcher α) (batch : List (List α)) : PageFetcher α :=
  List.foldl handle_page st batch

/-- A delivery schedule: entry `i` is the batch of page-arrival callbacks
that fire just before the `i`-th counter poll of a `wait` loop (entries past
the end of the list mean no callback fires). -/
abbrev Schedule (α : Type) : Type := List (List (List α))

/-- The exact message of the `RuntimeError` raised by `PageFetcher.wait`. -/
def timeoutMessage : String := "Requested pages were not delivered before timeout."

/-- The busy-poll loop of `PageFetcher.wait`: with `n` polls left, apply the
callbacks that fired since the previous poll, then return the fetcher if
`requested_pages == retrieved_pages`, else keep polling; raise the timeout
`RuntimeError` once the deadline has passed. -/
def waitLoop {α : Type} : Nat → Schedule α → PageFetcher α → Except String (PageFetcher α)
  | 0, _, _ => Except.error timeoutMessage
  | n + 1, sched, st =>
    let st1 := deliverBatch st (sched.headD [])
    if st1.requested_pages = st1.retrieved_pages then Except.ok st1
    else waitLoop n sched.tail st1

/-- Method `PageFetcher.wait(seconds=5)`: busy-polls the counters until they
agree, raising `RuntimeError(timeoutMessage)` if `seconds` elapse first.
A non-positive bound admits zero polls. -/
def wait {α : Type} (st : PageFetcher α) (sched : Schedule α) (seconds : Int) :
    Except String (PageFetcher α) :=
  waitLoop seconds.toNat sched st

/-- The state observed by poll `i` of a `wait` loop started in state `st`
under schedule `sched`: all batches up to and including batch `i` have been
applied. -/
def pollState {α : Type} (st : PageFetcher α) (sched : Schedule α) (i : Nat) : PageFetcher α :=
  deliverBatch st ((sched.take (i + 1)).flatten)

/-- Constructor `PageFetcher.__init__(future)`: registers `handle_page` and
`handle_error` as the source's callbacks (registration is what makes the
delivery schedule reach `handle_page`), sets `requested_pages = 1` and
`retrieved_pages = 0` with no pages yet, then blocks in `wait(seconds=30)`
for the first page; the `RuntimeError` of an expired wait propagates out of
the constructor. -/
def pageFetcherInit {α : Type} (sched : Schedule α) : Except String (PageFetcher α) :=
  wait { pages := [], requested_pages := 1, retrieved_pages := 0 } sched 30

/-- Method `PageFetcher.request_page`: if the source has more pages, start
fetching the next page (its eventual delivery is the schedule `sched`),
increment `requested_pages`, and `wait()` with the default bound of 5;
otherwise do nothing.  Either way the fetcher itself is the result. -/
def request_page {α : Type} (hasMore : Bool) (st : PageFetcher α) (sched : Schedule α) :
    Except String (PageFetcher α) :=
  if hasMore then
    wait { st with requested_pages := st.requested_pages + 1 } sched 5
  else Except.ok st

/-- The external paged-result source (`future`), reduced to the pages it has
not yet served, in delivery order. -/
structure Future (α : Type) where
  remaining : List (List α)
deriving Repr, DecidableEq

/-- Property `has_more_pages` of the source (and its pass-through on
`PageFetcher`): whether any page has not yet been fetched. -/
def has_more_pages {α : Type} (fut : Future α) : Bool :=
  !fut.remaining.isEmpty

/-- Loop body sequence of `PageFetcher.request_all_pages`: while the source
has more pages, start fetching the next one, increment `requested_pages`
and `wait()`.  The fetch started in iteration `k` is delivered after
`delays.headD 0` empty polls of that iteration's wait (the source delivers
in request order, one callback per fetch). -/
def request_all_pages_from {α : Type} :
    PageFetcher α → List Nat → List (List α) → Except String (Future α × PageFetcher α)
  | st, _, [] => Except.ok ({ remaining := [] }, st)
  | st, delays, p :: rest =>
    match wait { st with requested_pages := st.requested_pages + 1 }
        (List.replicate (delays.headD 0) [] ++ [[p]]) 5 with
    | Except.ok st2 => request_all_pages_from st2 delays.tail rest
    | Except.error e => Except.error e

/-- Method `PageFetcher.request_all_pages`: requests any remaining pages;
a no-op when the future is exhausted.  Returns the final source and fetcher. -/
def request_all_pages {α : Type} (st : PageFetcher α) (delays : List Nat) (fut : Future α) :
    Except String (Future α × PageFetcher α) :=
  request_all_pages_from st delays fut.remaining

/-- Calling `request_all_pages` again `n` times in a row (test code chains
such calls); each call threads the source and fetcher it produced. -/
def repeat_request_all_pages {α : Type} :
    Nat → PageFetcher α → List Nat → Future α → Except String (Future α × PageFetcher α)
  | 0, st, _, fut => Except.ok (fut, st)
  | n + 1, st, delays, fut =>
    match request_all_pages st delays fut with
    | Except.ok (fut2, st2) => repeat_request_all_pages n st2 delays fut2
    | Except.error e => Except.error e

/-- Method `PageFetcher.retrieved_pagecount`: `len(self.pages)`. -/
def retrieved_pagecount {α : Type} (st : PageFetcher α) : Nat :=
  st.pages.length

/-- Python list subscription `xs[i]` with its negative-index semantics:
a negative `i` is offset by `len(xs)`, and an index that still falls outside
the list raises `IndexError` (here: `none`). -/
def pyGet {β : Type} (xs : List β) (i : Int) : Option β :=
  let j : Int := if i < 0 then (xs.length : Int) + i else i
  if j < 0 then none else xs.get? j.toNat

/-- Method `PageFetcher.num_results(page_num)`: `len(self.pages[page_num - 1].data)`. -/
def num_results {α : Type} (st : PageFetcher α) (page_num : Int) : Option Nat :=
  (pyGet st.pages (page_num - 1)).map (fun p => p.data.length)

/-- Method `PageFetcher.num_results_all_pages`: per-page row counts in
arrival order. -/
def num_results_all_pages {α : Type} (st : PageFetcher α) : List Nat :=
  st.pages.map (fun p => p.data.length)

/-- Method `PageFetcher.retrieved_page_data(page_num)`:
`self.pages[page_num - 1].data`. -/
def retrieved_page_data {α : Type} (st : PageFetcher α) (page_num : Int) : Option (List α) :=
  (pyGet st.pages (page_num - 1)).map Page.data

/-- Method `PageFetcher.all_retrieved_data`: extends an accumulator with a
copy of every page's row list, in page order. -/
def all_retrieved_data {α : Type} (st : PageFetcher α) : List α :=
  st.pages.foldl (fun acc p => acc ++ p.data) []

/-- Number of fetches that have been requested but whose page has not yet
arrived. -/
def outstanding_fetches {α : Type} (st : PageFetcher α) : Nat :=
  st.requested_pages - st.retrieved_pages

/-- The fetcher states reachable from construction by any interleaving of
`request_page` / `request_all_pages` counter increments and source-driven
`handle_page` callbacks, where the source fires at most one page callback
per requested fetch (a callback only fires while a fetch is outstanding). -/
inductive Reachable {α : Type} : PageFetcher α → Prop where
  | construct : Reachable { pages := [], requested_pages := 1, retrieved_pages := 0 }
  | request : ∀ {st : PageFetcher α}, Reachable st →
      Reachable { st with requested_pages := st.requested_pages + 1 }
  | arrival : ∀ {st : PageFetcher α} (rows : List α), Reachable st →
      st.retrieved_pages < st.requested_pages → Reachable (handle_page st rows)

/-!
Embedding of the row-fixture parsing and row-set comparison helpers of
`datahelp.py`.  Python strings become `String`; `str.split(sep)` becomes
`String.split` on a character predicate (both keep empty fields and both
return one field for the empty string); `str.strip()` becomes
`String.trim`; dictionaries become association lists in which a repeated
key keeps its first position but its last value, exactly the update
semantics of a Python dict; `format_funcs` (a dict of per-column functions
or `None`) becomes a total function into `Option`, with the `None` /
missing-column cases both rendered by `none`. -/

/-- The whitespace characters removed by Python `str.strip()` (its ASCII
whitespace set). -/
def isPySpace (c : Char) : Bool :=
  c == ' ' || c == '\t' || c == '\n' || c == '\r' || c == Char.ofNat 11 || c == Char.ofNat 12

/-- Python `str.strip()` with no argument: whitespace removed from both
ends. -/
def pyTrim (s : String) : String :=
  String.mk (((s.data.dropWhile isPySpace).reverse.dropWhile isPySpace).reverse)

/-- Python `str.split(sep)` on character lists: fields are kept even when
empty, and the empty string yields one empty field. -/
def splitChars (sep : Char → Bool) : List Char → List (List Char)
  | [] => [[]]
  | c :: cs =>
    let r := splitChars sep cs
    if sep c then [] :: r
    else
      match r with
      | g :: gs => (c :: g) :: gs
      | [] => [[c]]

/-- Python `str.split(sep)` for a one-character separator. -/
def pySplit (s : String) (sep : Char → Bool) : List String :=
  (splitChars sep s.data).map String.mk

/-- Python `sep.join(strs)`. -/
def pyJoin (sep : String) : List String → String
  | [] => ""
  | [x] => x
  | x :: y :: xs => x ++ sep ++ pyJoin sep (y :: xs)

/-- Function `strip(val)` of `datahelp.py`: removes whitespace and then
pipe characters from both ends. -/
def strip (s : String) : String :=
  let t := pyTrim s
  String.mk (((t.data.dropWhile (fun c => c == '|')).reverse.dropWhile (fun c => c == '|')).reverse)

/-- Numeric value of a list of decimal digit characters, as Python `int`
reads it (leading zeros allowed). -/
def digitsToNat (ds : List Char) : Nat :=
  ds.foldl (fun n c => n * 10 + (c.toNat - Char.toNat '0')) 0

/-- The regular-expression test `re.findall('\\*(\\d+)$', cell)` of
`get_row_multiplier`, applied to one (already stripped) cell: the pattern
matches exactly when the cell ends in one or more decimal digits
immediately preceded by a literal `*`, and captures those digits. -/
def cellMultiplier (cell : String) : Option Nat :=
  let rev := cell.data.reverse
  let ds := rev.takeWhile Char.isDigit
  if ds.isEmpty then none
  else
    match rev.drop ds.length with
    | c :: _ => if c == '*' then some (digitsToNat ds.reverse) else none
    | [] => none

/-- Function `get_row_multiplier(row)`: splits the row on pipes, strips each
cell, and reads a `*N` multiplier off the end of the first cell. -/
def get_row_multiplier (row : String) : Option Nat :=
  cellMultiplier (((pySplit row (fun c => c == '|')).map pyTrim).headD "")

/-- Function `row_has_multiplier(row)`. -/
def row_has_multiplier (row : String) : Bool :=
  (get_row_multiplier row).isSome

/-- Python dict assignment `m[k] = v` on an association list: an existing
key keeps its position and takes the new value, a new key is appended. -/
def dictInsert (m : List (String × String)) (k v : String) : List (String × String) :=
  if m.any (fun kv => kv.1 == k) then
    m.map (fun kv => if kv.1 == k then (k, v) else kv)
  else m ++ [(k, v)]

/-- Python `dict(pairs)`: insert the pairs left to right. -/
def pyDict (pairs : List (String × String)) : List (String × String) :=
  pairs.foldl (fun m kv => dictInsert m kv.1 kv.2) []

/-- The `format_funcs` application loop of `parse_row_into_dict`: every
column that has a formatting function gets its value replaced by the
function of that value. -/
def applyFormat (fmt : String → Option (String → String))
    (m : List (String × String)) : List (String × String) :=
  m.map (fun kv =>
    match fmt kv.1 with
    | some f => (kv.1, f kv.2)
    | none => kv)

/-- Result of `parse_row_into_dict`: a row mapping in the ordinary case, and
a Python list of recursive results when the first cell carries a `*N`
multiplier (the source then parses the rest of the row `N` times). -/
inductive RowParse where
  | dict : List (String × String) → RowParse
  | list : List RowParse → RowParse
deriving Repr

/-- Function `parse_row_into_dict`, expressed on the stripped cell list of
the row.  The multiplier branch of the source re-joins `cells[1:]` with
pipes and recursively re-splits and re-strips; since stripped cells contain
no pipe and stripping is idempotent, that round trip is the identity on a
nonempty remainder, and the empty remainder re-splits to the single empty
cell, which the first equation inlines. -/
def parse_cells (headers : List String) (fmt : String → Option (String → String)) :
    List String → RowParse
  | [] => RowParse.dict (applyFormat fmt (pyDict (headers.zip [""])))
  | c :: rest =>
    match cellMultiplier c with
    | some n => RowParse.list (List.replicate n (parse_cells headers fmt rest))
    | none => RowParse.dict (applyFormat fmt (pyDict (headers.zip (c :: rest))))

/-- Function `parse_row_into_dict(row, headers, format_funcs)`. -/
def parse_row_into_dict (row : String) (headers : List String)
    (fmt : String → Option (String → String)) : RowParse :=
  parse_cells headers fmt ((pySplit row (fun c => c == '|')).map pyTrim)

/-- Function `parse_headers_into_list(data)`: header names are the stripped
cells of the first nonempty stripped line.  (Its caller always passes a
single nonempty stripped line; on no nonempty line the source raises, here
rendered by the empty header list, which no theorem relies on.) -/
def parse_headers_into_list (data : String) : List String :=
  match ((pySplit data (fun c => c == '\n')).map strip).filter (fun r => r ≠ "") with
  | [] => []
  | first :: _ => (pySplit first (fun c => c == '|')).map pyTrim

/-- What one data row contributes to the output of `parse_data_into_dicts`:
a multiplier row's list result is spliced in by `values.extend`, any other
row's mapping is appended by `values.append`.  The source dispatches on
`row_has_multiplier(row)`, which holds exactly when `parse_row_into_dict`
returns the list form. -/
def row_contribution (headers : List String) (fmt : String → Option (String → String))
    (row : String) : List RowParse :=
  match parse_row_into_dict row headers fmt with
  | RowParse.list l => l
  | RowParse.dict d => [RowParse.dict d]

/-- Function `parse_data_into_dicts(data, format_funcs)`: split the block
into lines, strip them, drop empty ones, read the headers off the first
line, and accumulate each remaining row's contribution.  A block with no
nonempty line makes the source raise `IndexError` (`none` here). -/
def parse_data_into_dicts (data : String) (fmt : String → Option (String → String)) :
    Option (List RowParse) :=
  match ((pySplit data (fun c => c == '\n')).map strip).filter (fun r => r ≠ "") with
  | [] => none
  | headerRow :: dataRows =>
    some (dataRows.foldl
      (fun values row => values ++ row_contribution (parse_headers_into_list headerRow) fmt row)
      [])

/-- Python string comparison (Unicode code point lexicographic order, a
shorter string preceding its extensions), on character lists. -/
def charListLe : List Char → List Char → Bool
  | [], _ => true
  | _ :: _, [] => false
  | a :: as, b :: bs =>
    if a.toNat < b.toNat then true
    else if b.toNat < a.toNat then false
    else charListLe as bs

/-- Python `<=` on strings. -/
def strLe (a b : String) : Bool :=
  charListLe a.data b.data

/-- Insert a string into an already sorted list (kept stable, as Python's
`sorted` is). -/
def insertSorted (x : String) : List String → List String
  | [] => [x]
  | y :: ys => if strLe x y then x :: y :: ys else y :: insertSorted x ys

/-- Python `sorted` on a list of strings. -/
def sortStrings (l : List String) : List String :=
  l.foldr insertSorted []

/-- Python dict subscription `d[k]` on an association list.  `flatten` only
ever looks up keys of the dict itself, so the `KeyError` case (`""` here)
is never reached from it. -/
def dictGet (d : List (String × String)) (k : String) : String :=
  match d.find? (fun kv => kv.1 == k) with
  | some kv => kv.2
  | none => ""

/-- The per-record body of `flatten`: render each `key__value` item with the
keys in sorted order and join the items with `"__"`. -/
def flatten_one (d : List (String × String)) : String :=
  pyJoin "__" ((sortStrings (d.map Prod.fst)).map (fun k => k ++ "__" ++ dictGet d k))

/-- Function `flatten(list_of_dicts)` of `datahelp.py`. -/
def flatten (list_of_dicts : List (List (String × String))) : List String :=
  list_of_dicts.map flatten_one

/-- Function `flatten_into_set(iterable)`: `set(flatten(iterable))`. -/
def flatten_into_set (iterable : List (List (String × String))) : Finset String :=
  (flatten iterable).toFinset

/-!
Helper lemmas about delivery, polling and the wait loop.
-/

theorem handle_page_requested {α : Type} (st : PageFetcher α) (rows : List α) :
    (handle_page st rows).requested_pages = st.requested_pages := rfl

theorem handle_page_retrieved {α : Type} (st : PageFetcher α) (rows : List α) :
    (handle_page st rows).retrieved_pages = st.retrieved_pages + 1 := rfl

theorem handle_page_pages_length {α : Type} (st : PageFetcher α) (rows : List α) :
    (handle_page st rows).pages.length = st.pages.length + 1 := by
  simp [handle_page]

theorem deliverBatch_requested {α : Type} :
    ∀ (batch : List (List α)) (st : PageFetcher α),
      (deliverBatch st batch).requested_pages = st.requested_pages := by
  intro batch
  induction batch with
  | nil => intro st; rfl
  | cons b bs ih =>
    intro st
    show (deliverBatch (handle_page st b) bs).requested_pages = st.requested_pages
    rw [ih, handle_page_requested]

theorem deliverBatch_retrieved {α : Type} :
    ∀ (batch : List (List α)) (st : PageFetcher α),
      (deliverBatch st batch).retrieved_pages = st.retrieved_pages + batch.length := by
  intro batch
  induction batch with
  | nil => intro st; rfl
  | cons b bs ih =>
    intro st
    show (deliverBatch (handle_page st b) bs).retrieved_pages = st.retrieved_pages + (b :: bs).length
    rw [ih, handle_page_retrieved]
    simp
    omega

theorem deliverBatch_pages_length {α : Type} :
    ∀ (batch : List (List α)) (st : PageFetcher α),
      (deliverBatch st batch).pages.length = st.pages.length + batch.length := by
  intro batch
  induction batch with
  | nil => intro st; rfl
  | cons b bs ih =>
    intro st
    show (deliverBatch (handle_page st b) bs).pages.length = st.pages.length + (b :: bs).length
    rw [ih, handle_page_pages_length]
    simp
    omega

theorem deliverBatch_append {α : Type} (st : PageFetcher α) (a b : List (List α)) :
    deliverBatch st (a ++ b) = deliverBatch (deliverBatch st a) b := by
  simp [deliverBatch, List.foldl_append]

theorem pollState_zero {α : Type} (st : PageFetcher α) (sched : Schedule α) :
    pollState st sched 0 = deliverBatch st (sched.headD []) := by
  cases sched with
  | nil => simp [pollState, deliverBatch]
  | cons x xs => simp [pollState]

theorem pollState_succ {α : Type} (st : PageFetcher α) (sched : Schedule α) (i : Nat) :
    pollState st sched (i + 1) = pollState (deliverBatch st (sched.headD [])) sched.tail i := by
  cases sched with
  | nil => simp [pollState, deliverBatch]
  | cons x xs => simp [pollState, deliverBatch_append]

theorem pollState_requested {α : Type} (st : PageFetcher α) (sched : Schedule α) (i : Nat) :
    (pollState st sched i).requested_pages = st.requested_pages :=
  deliverBatch_requested _ _

theorem pollState_retrieved {α : Type} (st : PageFetcher α) (sched : Schedule α) (i : Nat) :
    (pollState st sched i).retrieved_pages
      = st.retrieved_pages + ((sched.take (i + 1)).flatten).length :=
  deliverBatch_retrieved _ _

theorem pollState_pages_length {α : Type} (st : PageFetcher α) (sched : Schedule α) (i : Nat) :
    (pollState st sched i).pages.length
      = st.pages.length + ((sched.take (i + 1)).flatten).length :=
  deliverBatch_pages_length _ _

theorem pollState_all_empty {α : Type} (st : PageFetcher α) (sched : Schedule α) (i : Nat)
    (h : ∀ b ∈ sched, b = []) : pollState st sched i = st := by
  have hflat : ((sched.take (i + 1)).flatten) = [] := by
    rw [List.flatten_eq_nil_iff]
    intro b hb
    exact h b (List.mem_of_mem_take hb)
  show deliverBatch st ((sched.take (i + 1)).flatten) = st
  rw [hflat]
  rfl

theorem waitLoop_ok_state {α : Type} :
    ∀ (n : Nat) (sched : Schedule α) (st st' : PageFetcher α),
      waitLoop n sched st = Except.ok st' →
      ∃ i, i < n ∧ st' = pollState st sched i ∧
        (pollState st sched i).requested_pages = (pollState st sched i).retrieved_pages := by
  intro n
  induction n with
  | zero => intro sched st st' h; exact absurd h (by simp [waitLoop])
  | succ n ih =>
    intro sched st st' h
    rw [waitLoop] at h
    by_cases heq : (deliverBatch st (sched.headD [])).requested_pages
        = (deliverBatch st (sched.headD [])).retrieved_pages
    · rw [if_pos heq] at h
      refine ⟨0, Nat.succ_pos n, ?_, ?_⟩
      · rw [pollState_zero]
        exact (Except.ok.inj h).symm
      · rw [pollState_zero]
        exact heq
    · rw [if_neg heq] at h
      obtain ⟨i, hi, hst, hcnt⟩ := ih sched.tail (deliverBatch st (sched.headD [])) st' h
      refine ⟨i + 1, Nat.succ_lt_succ hi, ?_, ?_⟩
      · rw [pollState_succ]; exact hst
      · rw [pollState_succ]; exact hcnt

theorem waitLoop_ok_of_eq {α : Type} :
    ∀ (n : Nat) (sched : Schedule α) (st : PageFetcher α) (i : Nat), i < n →
      (pollState st sched i).requested_pages = (pollState st sched i).retrieved_pages →
      ∃ st', waitLoop n sched st = Except.ok st' := by
  intro n
  induction n with
  | zero => intro sched st i hi; omega
  | succ n ih =>
    intro sched st i hi hcnt
    rw [waitLoop]
    by_cases heq : (deliverBatch st (sched.headD [])).requested_pages
        = (deliverBatch st (sched.headD [])).retrieved_pages
    · exact ⟨_, by rw [if_pos heq]⟩
    · rw [if_neg heq]
      cases i with
      | zero =>
        rw [pollState_zero] at hcnt
        exact absurd hcnt heq
      | succ j =>
        rw [pollState_succ] at hcnt
        exact ih sched.tail _ j (Nat.lt_of_succ_lt_succ hi) hcnt

theorem waitLoop_error_of_ne {α : Type} :
    ∀ (n : Nat) (sched : Schedule α) (st : PageFetcher α),
      (∀ i, i < n →
        (pollState st sched i).requested_pages ≠ (pollState st sched i).retrieved_pages) →
      waitLoop n sched st = Except.error timeoutMessage := by
  intro n
  induction n with
  | zero => intro sched st _; rfl
  | succ n ih =>
    intro sched st h
    rw [waitLoop]
    have h0 := h 0 (Nat.succ_pos n)
    rw [pollState_zero] at h0
    rw [if_neg h0]
    refine ih sched.tail _ ?_
    intro i hi
    have := h (i + 1) (Nat.succ_lt_succ hi)
    rw [pollState_succ] at this
    exact this

/-!
Claim theorems.
-/

/-- C1: in every state of a `PageFetcher` reachable by construction followed
by any interleaving of `request_page` / `request_all_pages` counter
increments and source-driven page-arrival callbacks (the source firing at
most one page callback per requested fetch), the retrieved counter is at
most the requested counter, and the two counters are equal exactly when no
fetch is outstanding. -/
theorem counters_invariant {α : Type} (st : PageFetcher α) (h : Reachable st) :
    st.retrieved_pages ≤ st.requested_pages
      ∧ (st.retrieved_pages = st.requested_pages ↔ outstanding_fetches st = 0) := by
  induction h with
  | construct => simp [outstanding_fetches]
  | request h ih =>
    simp only [outstanding_fetches] at *
    omega
  | arrival rows h hlt ih =>
    simp only [outstanding_fetches, handle_page_requested, handle_page_retrieved] at *
    omega

/-- Witness for C1 at a concrete reachable state: construction, one extra
request, then arrival of a three-row page. -/
theorem counters_invariant_witness :
    (handle_page { pages := [], requested_pages := 2, retrieved_pages := 0 } [5, 6, 7]
        : PageFetcher Nat).retrieved_pages
      ≤ (handle_page { pages := [], requested_pages := 2, retrieved_pages := 0 } [5, 6, 7]
        : PageFetcher Nat).requested_pages
    ∧ ((handle_page { pages := [], requested_pages := 2, retrieved_pages := 0 } [5, 6, 7]
        : PageFetcher Nat).retrieved_pages
      = (handle_page { pages := [], requested_pages := 2, retrieved_pages := 0 } [5, 6, 7]
        : PageFetcher Nat).requested_pages
      ↔ outstanding_fetches
          (handle_page { pages := [], requested_pages := 2, retrieved_pages := 0 } [5, 6, 7]
            : PageFetcher Nat) = 0) :=
  counters_invariant _
    (Reachable.arrival [5, 6, 7] (Reachable.request Reachable.construct) (by decide))

/-- C2: for a positive bound, `wait` returns the fetcher if the requested
and retrieved counters agree at some poll before the bound elapses, raises
the timeout failure with exactly the message "Requested pages were not
delivered before timeout." when they never agree within the bound, and in
particular always raises it when no callback fires while a request is
outstanding. -/
theorem wait_spec {α : Type} (st : PageFetcher α) (sched : Schedule α) (s : Int)
    (_hpos : 0 < s) :
    ((∃ i, i < s.toNat ∧ (pollState st sched i).requested_pages
        = (pollState st sched i).retrieved_pages) →
      ∃ st', wait st sched s = Except.ok st')
    ∧ ((∀ i, i < s.toNat → (pollState st sched i).requested_pages
        ≠ (pollState st sched i).retrieved_pages) →
      wait st sched s = Except.error "Requested pages were not delivered before timeout.")
    ∧ ((∀ b ∈ sched, b = []) → st.requested_pages ≠ st.retrieved_pages →
      wait st sched s = Except.error "Requested pages were not delivered before timeout.") := by
  refine ⟨?_, ?_, ?_⟩
  · rintro ⟨i, hi, hcnt⟩
    exact waitLoop_ok_of_eq s.toNat sched st i hi hcnt
  · intro h
    exact waitLoop_error_of_ne s.toNat sched st h
  · intro hempty hne
    refine waitLoop_error_of_ne s.toNat sched st ?_
    intro i _
    rw [pollState_all_empty st sched i hempty]
    exact hne

/-- Witness for C2: a schedule that delivers the single outstanding page at
the first poll makes `wait 5` succeed. -/
theorem wait_spec_witness :
    ∃ st', wait ({ pages := [], requested_pages := 1, retrieved_pages := 0 } : PageFetcher Nat)
        [[[4]]] 5 = Except.ok st' :=
  (wait_spec { pages := [], requested_pages := 1, retrieved_pages := 0 } [[[4]]] 5
      (by decide)).1 ⟨0, by decide, by decide⟩

/-- C10: with a zero or negative bound, `wait` raises the timeout failure
unconditionally — even when the requested and retrieved counters already
agree — because the counter check only happens inside the loop guarded by
the not-yet-expired deadline. -/
theorem wait_nonpositive_spec {α : Type} (st : PageFetcher α) (sched : Schedule α) (s : Int)
    (h : s ≤ 0) :
    wait st sched s = Except.error "Requested pages were not delivered before timeout." := by
  have : s.toNat = 0 := Int.toNat_of_nonpos h
  rw [wait, this]
  rfl

/-- Witness for C10: bound 0 on a fetcher whose counters already agree. -/
theorem wait_nonpositive_spec_witness :
    ({ pages := [], requested_pages := 1, retrieved_pages := 1 } : PageFetcher Nat).requested_pages
      = ({ pages := [], requested_pages := 1, retrieved_pages := 1 }
          : PageFetcher Nat).retrieved_pages
    ∧ wait ({ pages := [], requested_pages := 1, retrieved_pages := 1 } : PageFetcher Nat) [] 0
      = Except.error "Requested pages were not delivered before timeout." :=
  ⟨rfl, wait_nonpositive_spec _ [] 0 (by decide)⟩

/-- C3: constructing a `PageFetcher` starts from an empty page list with
`requested_pages = 1` and `retrieved_pages = 0` and blocks in a wait bounded
by 30 time units; if the source never delivers the first page the
construction raises the timeout failure, and a successful construction has
retrieved exactly the first page. -/
theorem pageFetcherInit_spec {α : Type} (sched : Schedule α) :
    pageFetcherInit sched
      = wait { pages := [], requested_pages := 1, retrieved_pages := 0 } sched 30
    ∧ ((∀ b ∈ sched, b = []) →
        pageFetcherInit sched
          = Except.error "Requested pages were not delivered before timeout.")
    ∧ (∀ st', pageFetcherInit sched = Except.ok st' →
        st'.requested_pages = 1 ∧ st'.retrieved_pages = 1 ∧ st'.pages.length = 1) := by
  refine ⟨rfl, ?_, ?_⟩
  · intro hempty
    refine waitLoop_error_of_ne _ sched _ ?_
    intro i _
    rw [pollState_all_empty _ sched i hempty]
    simp
  · intro st' hok
    obtain ⟨i, _, hst, hcnt⟩ := waitLoop_ok_state _ sched _ st' hok
    have hreq := pollState_requested
      ({ pages := [], requested_pages := 1, retrieved_pages := 0 } : PageFetcher α) sched i
    have hret := pollState_retrieved
      ({ pages := [], requested_pages := 1, retrieved_pages := 0 } : PageFetcher α) sched i
    have hlen := pollState_pages_length
      ({ pages := [], requested_pages := 1, retrieved_pages := 0 } : PageFetcher α) sched i
    rw [hst]
    simp only [List.length_nil] at hreq hret hlen
    omega

/-- Witness for C3: a schedule delivering the first page at the first poll
yields a constructed fetcher holding exactly that page. -/
theorem pageFetcherInit_spec_witness :
    ({ pages := [{ data := [4] }], requested_pages := 1, retrieved_pages := 1 }
        : PageFetcher Nat).requested_pages = 1
    ∧ ({ pages := [{ data := [4] }], requested_pages := 1, retrieved_pages := 1 }
        : PageFetcher Nat).retrieved_pages = 1
    ∧ ({ pages := [{ data := [4] }], requested_pages := 1, retrieved_pages := 1 }
        : PageFetcher Nat).pages.length = 1 :=
  (pageFetcherInit_spec [[[4]]]).2.2
    { pages := [{ data := [4] }], requested_pages := 1, retrieved_pages := 1 } rfl

/-- C4: when the source has more pages, `request_page` starts the next fetch
(whose delivery is the schedule), increments `requested_pages` by exactly
one and enters `wait` with its default bound of 5 time units; when the
source is exhausted it returns the unchanged fetcher immediately; any
successful call returns a fetcher whose requested counter grew by exactly
one. -/
theorem request_page_spec {α : Type} (st : PageFetcher α) (sched : Schedule α) :
    request_page true st sched
      = wait { st with requested_pages := st.requested_pages + 1 } sched 5
    ∧ request_page false st sched = Except.ok st
    ∧ (∀ st', request_page true st sched = Except.ok st' →
        st'.requested_pages = st.requested_pages + 1) := by
  refine ⟨rfl, rfl, ?_⟩
  intro st' hok
  obtain ⟨i, _, hst, _⟩ := waitLoop_ok_state _ sched _ st' hok
  rw [hst, pollState_requested]

/-- Witness for C4: one outstanding request served at the first poll. -/
theorem request_page_spec_witness :
    ({ pages := [{ data := [9] }], requested_pages := 2, retrieved_pages := 2 }
        : PageFetcher Nat).requested_pages
      = ({ pages := [], requested_pages := 1, retrieved_pages := 1 }
        : PageFetcher Nat).requested_pages + 1 :=
  (request_page_spec { pages := [], requested_pages := 1, retrieved_pages := 1 } [[[9]]]).2.2
    { pages := [{ data := [9] }], requested_pages := 2, retrieved_pages := 2 } rfl

/-- C5: when the source reports no more pages, `request_page` and
`request_all_pages` are no-ops — pages and both counters are unchanged —
and so is any number of repeated `request_all_pages` calls. -/
theorem exhausted_requests_noop {α : Type} (fut : Future α) (st : PageFetcher α)
    (delays : List Nat) (h : has_more_pages fut = false) :
    request_all_pages st delays fut = Except.ok (fut, st)
    ∧ (∀ sched : Schedule α, request_page (has_more_pages fut) st sched = Except.ok st)
    ∧ (∀ n, repeat_request_all_pages n st delays fut = Except.ok (fut, st)) := by
  have hrem : fut.remaining = [] := by
    cases hr : fut.remaining with
    | nil => rfl
    | cons p rest => rw [has_more_pages, hr] at h; simp at h
  have hfut : fut = { remaining := [] } := by
    cases fut
    simp_all
  have hone : request_all_pages st delays fut = Except.ok (fut, st) := by
    rw [request_all_pages, hrem, hfut]
    rfl
  refine ⟨hone, ?_, ?_⟩
  · intro sched
    rw [h]
    rfl
  · intro n
    induction n with
    | zero => rfl
    | succ n ih =>
      rw [repeat_request_all_pages, hone]
      exact ih

/-- Witness for C5: an exhausted source leaves an idle fetcher untouched,
also across three repeated calls. -/
theorem exhausted_requests_noop_witness :
    request_all_pages ({ pages := [], requested_pages := 1, retrieved_pages := 1 }
        : PageFetcher Nat) [] { remaining := [] }
      = Except.ok ({ remaining := [] },
          { pages := [], requested_pages := 1, retrieved_pages := 1 })
    ∧ repeat_request_all_pages 3 ({ pages := [], requested_pages := 1, retrieved_pages := 1 }
        : PageFetcher Nat) [] { remaining := [] }
      = Except.ok ({ remaining := [] },
          { pages := [], requested_pages := 1, retrieved_pages := 1 }) :=
  ⟨(exhausted_requests_noop { remaining := [] }
      { pages := [], requested_pages := 1, retrieved_pages := 1 } [] rfl).1,
   (exhausted_requests_noop { remaining := [] }
      { pages := [], requested_pages := 1, retrieved_pages := 1 } [] rfl).2.2 3⟩

theorem foldl_append_data {α : Type} :
    ∀ (pages : List (Page α)) (acc : List α),
      pages.foldl (fun a p => a ++ p.data) acc = acc ++ (pages.map Page.data).flatten := by
  intro pages
  induction pages with
  | nil => intro acc; simp
  | cons p ps ih =>
    intro acc
    simp only [List.foldl_cons, List.map_cons, List.flatten_cons]
    rw [ih, List.append_assoc]

/-- C6: `all_retrieved_data` is the concatenation of the pages' row lists in
page-arrival order (intra-page order preserved), so its length is the sum
of the per-page counts of `num_results_all_pages`. -/
theorem all_retrieved_data_spec {α : Type} (st : PageFetcher α) :
    all_retrieved_data st = (st.pages.map Page.data).flatten
    ∧ (all_retrieved_data st).length = (num_results_all_pages st).sum := by
  have hflat : all_retrieved_data st = (st.pages.map Page.data).flatten := by
    rw [all_retrieved_data, foldl_append_data]
    rfl
  refine ⟨hflat, ?_⟩
  rw [hflat, List.length_flatten, num_results_all_pages, List.map_map]
  rfl

theorem pyGet_nonneg {β : Type} (xs : List β) (i : Int) (h : 0 ≤ i) :
    pyGet xs i = xs.get? i.toNat := by
  simp only [pyGet]
  rw [if_neg (by omega : ¬ i < 0), if_neg (by omega : ¬ i < 0)]

theorem pyGet_neg_inbounds {β : Type} (xs : List β) (i : Int) (h1 : i < 0)
    (h2 : 0 ≤ (xs.length : Int) + i) :
    pyGet xs i = xs.get? ((xs.length : Int) + i).toNat := by
  simp only [pyGet]
  rw [if_pos h1, if_neg (by omega : ¬ (xs.length : Int) + i < 0)]

theorem pyGet_neg_oob {β : Type} (xs : List β) (i : Int) (h : (xs.length : Int) + i < 0) :
    pyGet xs i = none := by
  have h1 : i < 0 := by omega
  simp only [pyGet]
  rw [if_pos h1, if_pos h]

theorem pyGet_oob_high {β : Type} (xs : List β) (i : Int) (h : (xs.length : Int) ≤ i) :
    pyGet xs i = none := by
  have h0 : (0 : Int) ≤ i := le_trans (by positivity) h
  rw [pyGet_nonneg xs i h0]
  exact List.get?_eq_none.mpr (by omega)

/-- C7 (amended): `num_results` and `retrieved_page_data` are 1-indexed: for
`page_number` between 1 and the number of retrieved pages they return that
page's row count, respectively its row sequence.  A `page_number` above the
page count, or so far below that the Python negative index falls off the
front, raises the out-of-bounds failure; but a `page_number` between
`1 - count` and `0` does NOT fail — Python negative indexing silently
returns the data of page `count + page_number`. -/
theorem page_accessors_amended {α : Type} (st : PageFetcher α) (k : Int) :
    (1 ≤ k → k ≤ (st.pages.length : Int) →
      ∃ p, st.pages.get? (k.toNat - 1) = some p
        ∧ num_results st k = some p.data.length
        ∧ retrieved_page_data st k = some p.data)
    ∧ (((st.pages.length : Int) < k ∨ k + (st.pages.length : Int) < 1) →
      num_results st k = none ∧ retrieved_page_data st k = none)
    ∧ (1 - (st.pages.length : Int) ≤ k → k ≤ 0 →
      ∃ p, st.pages.get? ((st.pages.length : Int) + k - 1).toNat = some p
        ∧ num_results st k = some p.data.length
        ∧ retrieved_page_data st k = some p.data) := by
  refine ⟨?_, ?_, ?_⟩
  · intro h1 h2
    have hget : pyGet st.pages (k - 1) = st.pages.get? (k - 1).toNat :=
      pyGet_nonneg st.pages (k - 1) (by omega)
    have hidx : (k - 1).toNat < st.pages.length := by omega
    refine ⟨st.pages.get ⟨(k - 1).toNat, hidx⟩, ?_, ?_, ?_⟩
    · have : (k - 1).toNat = k.toNat - 1 := by omega
      rw [← this]
      exact List.get?_eq_get hidx
    · rw [num_results, hget, List.get?_eq_get hidx]
      rfl
    · rw [retrieved_page_data, hget, List.get?_eq_get hidx]
      rfl
  · intro h
    have hnone : pyGet st.pages (k - 1) = none := by
      rcases h with h | h
      · exact pyGet_oob_high st.pages (k - 1) (by omega)
      · exact pyGet_neg_oob st.pages (k - 1) (by omega)
    exact ⟨by rw [num_results, hnone]; rfl, by rw [retrieved_page_data, hnone]; rfl⟩
  · intro h1 h2
    have hget : pyGet st.pages (k - 1)
        = st.pages.get? ((st.pages.length : Int) + (k - 1)).toNat :=
      pyGet_neg_inbounds st.pages (k - 1) (by omega) (by omega)
    have hidx : ((st.pages.length : Int) + (k - 1)).toNat < st.pages.length := by omega
    refine ⟨st.pages.get ⟨((st.pages.length : Int) + (k - 1)).toNat, hidx⟩, ?_, ?_, ?_⟩
    · have : (st.pages.length : Int) + (k - 1) = (st.pages.length : Int) + k - 1 := by ring
      rw [← this]
      exact List.get?_eq_get hidx
    · rw [num_results, hget, List.get?_eq_get hidx]
      rfl
    · rw [retrieved_page_data, hget, List.get?_eq_get hidx]
      rfl

/-- Witness for C7 (amended): a two-page fetcher, accessed in range at page
2 and through the negative-index window at page number 0. -/
theorem page_accessors_amended_witness :
    (∃ p, ([⟨[7]⟩, ⟨[8, 9]⟩] : List (Page Nat)).get? ((2 : Int).toNat - 1) = some p
      ∧ num_results (⟨[⟨[7]⟩, ⟨[8, 9]⟩], 2, 2⟩ : PageFetcher Nat) 2 = some p.data.length
      ∧ retrieved_page_data (⟨[⟨[7]⟩, ⟨[8, 9]⟩], 2, 2⟩ : PageFetcher Nat) 2 = some p.data)
    ∧ (∃ p, ([⟨[7]⟩, ⟨[8, 9]⟩] : List (Page Nat)).get?
          (((2 : Nat) : Int) + (0 : Int) - 1).toNat = some p
      ∧ num_results (⟨[⟨[7]⟩, ⟨[8, 9]⟩], 2, 2⟩ : PageFetcher Nat) 0 = some p.data.length
      ∧ retrieved_page_data (⟨[⟨[7]⟩, ⟨[8, 9]⟩], 2, 2⟩ : PageFetcher Nat) 0 = some p.data) :=
  ⟨(page_accessors_amended (⟨[⟨[7]⟩, ⟨[8, 9]⟩], 2, 2⟩ : PageFetcher Nat) 2).1
      (by decide) (by decide),
   (page_accessors_amended (⟨[⟨[7]⟩, ⟨[8, 9]⟩], 2, 2⟩ : PageFetcher Nat) 0).2.2
      (by decide) (by decide)⟩

/-- Counterexample to C7 as stated: with one retrieved page of one row, page
number 0 is outside the 1-indexed range, yet both accessors return the last
page's data through Python negative indexing instead of failing. -/
theorem page_accessors_counterexample :
    num_results (⟨[⟨[7]⟩], 1, 1⟩ : PageFetcher Nat) 0 = some 1
    ∧ retrieved_page_data (⟨[⟨[7]⟩], 1, 1⟩ : PageFetcher Nat) 0 = some [7]
    ∧ num_results (⟨[⟨[7]⟩], 1, 1⟩ : PageFetcher Nat) 0 ≠ none := by
  refine ⟨by decide, by decide, by decide⟩

theorem foldl_contrib_flatMap (f : String → List RowParse) :
    ∀ (rows : List String) (acc : List RowParse),
      rows.foldl (fun values row => values ++ f row) acc = acc ++ rows.flatMap f := by
  intro rows
  induction rows with
  | nil => intro acc; simp
  | cons r rs ih =>
    intro acc
    simp only [List.foldl_cons, List.flatMap_cons]
    rw [ih, List.append_assoc]

/-- C8 (amended): in any fixture block, a data row whose first cell carries
a `*N` multiplier — provided the row has at least one remaining cell and
the FIRST remaining cell does not itself end in a `*`-digits suffix (the
code dispatches on the rejoined remainder's first cell only, so later
cells ending in `*`-digits are harmless data) — contributes exactly `N`
row-mappings to `parse_data_into_dicts`, each one built from the remaining
cells zipped with the header names with the per-column format functions
applied to that copy; and the block's output is the in-order concatenation
of its rows' contributions. -/
theorem parse_multiplier_amended (data : String) (fmt : String → Option (String → String))
    (headerRow row mcell : String) (dataRows rest : List String) (n : Nat)
    (hsplit : ((pySplit data (fun c => c == '\n')).map strip).filter (fun r => r ≠ "")
      = headerRow :: dataRows)
    (_hrow : row ∈ dataRows)
    (hcells : (pySplit row (fun c => c == '|')).map pyTrim = mcell :: rest)
    (hmult : cellMultiplier mcell = some n)
    (hne : rest ≠ [])
    (hfirst : cellMultiplier (rest.headD "") = none) :
    row_contribution (parse_headers_into_list headerRow) fmt row
      = List.replicate n (RowParse.dict (applyFormat fmt
          (pyDict ((parse_headers_into_list headerRow).zip rest))))
    ∧ parse_data_into_dicts data fmt
      = some (dataRows.flatMap (row_contribution (parse_headers_into_list headerRow) fmt)) := by
  have hparse : parse_row_into_dict row (parse_headers_into_list headerRow) fmt
      = RowParse.list (List.replicate n (RowParse.dict (applyFormat fmt
          (pyDict ((parse_headers_into_list headerRow).zip rest))))) := by
    rw [parse_row_into_dict, hcells]
    cases rest with
    | nil => exact absurd rfl hne
    | cons c2 rs =>
      have hc2 : cellMultiplier c2 = none := hfirst
      rw [parse_cells, hmult]
      rw [parse_cells, hc2]
  constructor
  · rw [row_contribution, hparse]
  · rw [parse_data_into_dicts]
    rw [hsplit]
    show some (dataRows.foldl
        (fun values row => values ++ row_contribution (parse_headers_into_list headerRow) fmt row)
        [])
      = some (dataRows.flatMap (row_contribution (parse_headers_into_list headerRow) fmt))
    rw [foldl_contrib_flatMap, List.nil_append]

/-- Witness for C8 (amended): the block with headers `a|b` and the single
data row `*2|x|y*3` — whose LAST remaining cell ends in `*`-digits while
its first remaining cell does not — yields exactly two ordinary copies of
the mapping sending a to x and b to the literal string y*3. -/
theorem parse_multiplier_amended_witness :
    row_contribution (parse_headers_into_list "a|b") (fun _ => none) "*2|x|y*3"
      = List.replicate 2 (RowParse.dict (applyFormat (fun _ => none)
          (pyDict ((parse_headers_into_list "a|b").zip ["x", "y*3"]))))
    ∧ parse_data_into_dicts "a|b\n*2|x|y*3" (fun _ => none)
      = some (["*2|x|y*3"].flatMap (row_contribution (parse_headers_into_list "a|b")
          (fun _ => none))) :=
  parse_multiplier_amended "a|b\n*2|x|y*3" (fun _ => none) "a|b" "*2|x|y*3" "*2"
    ["*2|x|y*3"] ["x", "y*3"] 2 (by decide) (by decide) (by decide) (by decide)
    (by decide) (by decide)

/-- Counterexample to C8 as stated: in the block with headers `a|b`, the
data row `*2|x*3|y` has the multiplier 2 on its first cell, yet its two
generated entries are nested Python lists — the remainder `x*3|y` starts
with a cell ending in `*`-digits and is itself multiplier-parsed — not
row-mappings zipped from the remaining cells; and
in the block with header `a`, the row `*2` (no remaining cell) yields
mappings pairing a with the empty string, not mappings built from the empty
cell list. -/
theorem parse_multiplier_counterexample :
    parse_data_into_dicts "a|b\n*2|x*3|y" (fun _ => none)
      = some [RowParse.list (List.replicate 3 (RowParse.dict [("a", "y")])),
              RowParse.list (List.replicate 3 (RowParse.dict [("a", "y")]))]
    ∧ parse_data_into_dicts "a|b\n*2|x*3|y" (fun _ => none)
      ≠ some (List.replicate 2 (RowParse.dict [("a", "x*3"), ("b", "y")]))
    ∧ parse_data_into_dicts "a\n*2" (fun _ => none)
      = some [RowParse.dict [("a", "")], RowParse.dict [("a", "")]]
    ∧ parse_data_into_dicts "a\n*2" (fun _ => none)
      ≠ some (List.replicate 2 (RowParse.dict [])) := by
  refine ⟨by rfl, ?_, by rfl, ?_⟩
  · intro h
    rw [show parse_data_into_dicts "a|b\n*2|x*3|y" (fun _ => none)
      = some [RowParse.list (List.replicate 3 (RowParse.dict [("a", "y")])),
              RowParse.list (List.replicate 3 (RowParse.dict [("a", "y")]))] from rfl] at h
    simp [List.replicate] at h
  · intro h
    rw [show parse_data_into_dicts "a\n*2" (fun _ => none)
      = some [RowParse.dict [("a", "")], RowParse.dict [("a", "")]] from rfl] at h
    simp [List.replicate] at h

/-- C9: the canonical flattening of row-records is not injective — the
records mapping a to b and c to d, and the single-column record mapping a
to the string b__c__d, are different mappings (different keys) with the
same flattened string, because `__` both separates a key from its value and
joins columns; hence equal flattened sets do not imply equal record sets. -/
theorem flatten_collision :
    ∃ d1 d2 : List (String × String),
      d1 ≠ d2
      ∧ d1.map Prod.fst ≠ d2.map Prod.fst
      ∧ flatten_one d1 = flatten_one d2
      ∧ flatten [d1] = flatten [d2]
      ∧ flatten_into_set [d1] = flatten_into_set [d2]
      ∧ ([d1] : List (List (String × String))) ≠ [d2] := by
  refine ⟨[("a", "b"), ("c", "d")], [("a", "b__c__d")], ?_, ?_, ?_, ?_, ?_, ?_⟩
  · decide
  · decide
  · decide
  · decide
  · decide
  · decide
